import Mathlib

/-!
Verification development for the vendor-evaluation scoring engine of the
windborne-finance-app repository.  The definitions below are a shallow
embedding of the pure scoring functions in
`apps/frontend/src/lib/utils.ts` and
`apps/frontend/src/lib/dynamicWeatherIntelligence.ts`.

Modelling conventions:
* JavaScript numbers are modelled as `ℚ`; `Math.floor` becomes `Int.floor`.
* `Math.random()` draws are threaded explicitly: functions that draw from
  the ambient generator take either a single draw `r : ℚ` or a stream
  `s : ℕ → ℚ` together with an index that advances draw by draw, in the
  exact order the source evaluates them.  `new Date()` month/year reads
  become explicit `m y : ℕ` parameters.
* Record lookups that can miss (`TABLE[key]`) become `Option`-valued
  lookup functions.
* Interpolated display strings that merely echo numbers through the
  locale-dependent `toLocaleString` (`formatCurrency`/`formatNumber`
  inside alert and insight messages) are not modelled; the fields kept on
  each record are exactly the ones any scoring logic or claim reads.
-/

/-- `apps/frontend/src/types/vendor.d.ts`: the raw vendor record. -/
structure VendorOverview where
  symbol : String
  name : String
  market_cap : ℚ
  pe_ratio : ℚ
  ebitda : ℚ
deriving DecidableEq

/-- Does `pat` occur as a contiguous run starting at the head of `l`?
(model of JS `String.prototype.startsWith` on char lists). -/
def matchesAt : List Char → List Char → Bool
  | [], _ => true
  | _ :: _, [] => false
  | c :: cs, d :: ds => c = d && matchesAt cs ds

/-- Model of JS `String.prototype.includes`: `pat` occurs contiguously in `s`. -/
def jsIncludes (s pat : String) : Bool :=
  (List.range (s.data.length + 1)).any (fun i => matchesAt pat.data (s.data.drop i))

/-- Model of JS `toLowerCase()`. -/
def lowerStr (s : String) : String := ⟨s.data.map Char.toLower⟩

/-- Model of JS `toUpperCase()`. -/
def upperStr (s : String) : String := ⟨s.data.map Char.toUpper⟩

/-- Model of JS `String(n).padStart(2, '0')` for the month numbers used here. -/
def pad2 (n : ℕ) : String := if n < 10 then "0" ++ toString n else toString n

/-! ## ContractReadinessScorer (`utils.ts`, `getContractReadiness`) -/

/-- Size component (40% weight): stepped thresholds on market cap in billions
(`utils.ts` lines 157-165). -/
def sizeComponent (marketCapB : ℚ) : ℚ :=
  if 100 < marketCapB then 40
  else if 50 < marketCapB then 35
  else if 20 < marketCapB then 30
  else if 10 < marketCapB then 25
  else if 5 < marketCapB then 20
  else if 2 < marketCapB then 15
  else if 1 < marketCapB then 10
  else 5

/-- Profitability component (40% weight): stepped thresholds on EBITDA in
billions (`utils.ts` lines 168-175). -/
def profitComponent (ebitdaB : ℚ) : ℚ :=
  if 10 < ebitdaB then 40
  else if 5 < ebitdaB then 35
  else if 2 < ebitdaB then 30
  else if 1 < ebitdaB then 25
  else if (0.5 : ℚ) < ebitdaB then 20
  else if (0.1 : ℚ) < ebitdaB then 15
  else if 0 < ebitdaB then 10
  else 0

/-- Efficiency component (20% weight): stepped thresholds on the
EBITDA-to-market-cap ratio (`utils.ts` lines 178-183). -/
def efficiencyComponent (ebitdaMargin : ℚ) : ℚ :=
  if (0.15 : ℚ) < ebitdaMargin then 20
  else if (0.10 : ℚ) < ebitdaMargin then 16
  else if (0.07 : ℚ) < ebitdaMargin then 12
  else if (0.05 : ℚ) < ebitdaMargin then 8
  else if (0.02 : ℚ) < ebitdaMargin then 4
  else 0

/-- P/E ratio adjustment (`utils.ts` lines 186-189). -/
def peAdjustment (pe : ℚ) : ℚ :=
  if 0 < pe then (if pe < 15 then 5 else if 50 < pe then -5 else 0) else 0

/-- The 0-100 "financial strength score" accumulated by
`getContractReadiness` (`utils.ts` lines 146-189).  The ternary
`vendor.ebitda > 0 ? vendor.ebitda / vendor.market_cap : 0` is the source's
EBITDA-margin computation. -/
def strengthScore (v : VendorOverview) : ℚ :=
  sizeComponent (v.market_cap / 1000000000)
    + profitComponent (v.ebitda / 1000000000)
    + efficiencyComponent (if 0 < v.ebitda then v.ebitda / v.market_cap else 0)
    + peAdjustment v.pe_ratio

/-- The grade/label/color triple returned by `getContractReadiness`
(the source names the grade field `score`). -/
structure ContractReadiness where
  score : String
  label : String
  color : String
deriving DecidableEq

/-- Score-to-grade bands of `getContractReadiness` (`utils.ts` lines 192-206). -/
def gradeOf (strength : ℚ) : ContractReadiness :=
  if 85 ≤ strength then ⟨"A+", "Fortune 500 Ready", "text-emerald-700 bg-emerald-100"⟩
  else if 75 ≤ strength then ⟨"A", "Enterprise Target", "text-green-700 bg-green-100"⟩
  else if 60 ≤ strength then ⟨"A-", "Large Corporate", "text-blue-700 bg-blue-100"⟩
  else if 45 ≤ strength then ⟨"B+", "Mid-Market Prime", "text-indigo-700 bg-indigo-100"⟩
  else if 30 ≤ strength then ⟨"B", "Growth Company", "text-amber-700 bg-amber-100"⟩
  else if 20 ≤ strength then ⟨"B-", "Emerging Player", "text-orange-700 bg-orange-100"⟩
  else ⟨"C", "Startup/Distressed", "text-slate-600 bg-slate-100"⟩

/-- `getContractReadiness` (`utils.ts` lines 146-207). -/
def getContractReadiness (v : VendorOverview) : ContractReadiness :=
  gradeOf (strengthScore v)

/-- Rank of the seven grades in their total order (C lowest). -/
def gradeRank (g : String) : ℕ :=
  if g = "A+" then 6
  else if g = "A" then 5
  else if g = "A-" then 4
  else if g = "B+" then 3
  else if g = "B" then 2
  else if g = "B-" then 1
  else 0

/-! ## WeatherExposureClassifier (`utils.ts`, `getWeatherExposure`) -/

/-- Critical weather-dependent keywords (+80) (`utils.ts` lines 220-223). -/
def critWeatherKw (v : VendorOverview) : Bool :=
  let name := lowerStr v.name
  jsIncludes name "agriculture" || jsIncludes name "farm" || jsIncludes name "crop" ||
  jsIncludes name "renewable" || jsIncludes name "solar" || jsIncludes name "wind energy"

/-- Utility/energy keywords (+75) (`utils.ts` lines 224-226). -/
def utilityKw (v : VendorOverview) : Bool :=
  let name := lowerStr v.name
  jsIncludes name "utility" || jsIncludes name "power" || jsIncludes name "electric" ||
  (jsIncludes name "energy" && !jsIncludes name "oil")

/-- Aviation keywords (+70) (`utils.ts` line 227). -/
def aviationKw (v : VendorOverview) : Bool :=
  let name := lowerStr v.name
  jsIncludes name "aviation" || jsIncludes name "airline" || jsIncludes name "airport"

/-- Shipping/logistics keywords (+60) (`utils.ts` lines 232-234). -/
def logisticsKw (v : VendorOverview) : Bool :=
  let name := lowerStr v.name
  jsIncludes name "shipping" || jsIncludes name "marine" || jsIncludes name "logistics" ||
  (jsIncludes name "transport" && !jsIncludes name "technology")

/-- Construction/materials keywords (+55) (`utils.ts` lines 235-237). -/
def constructionKw (v : VendorOverview) : Bool :=
  let name := lowerStr v.name
  jsIncludes name "construction" || jsIncludes name "infrastructure" ||
  jsIncludes name "materials" || jsIncludes name "concrete"

/-- Chemicals/industrial keywords or the DD/CE/LYB ticker allow-list (+50)
(`utils.ts` lines 238-241). -/
def chemicalKw (v : VendorOverview) : Bool :=
  let name := lowerStr v.name
  let symbol := upperStr v.symbol
  jsIncludes name "chemical" || jsIncludes name "specialty" || jsIncludes name "industrial" ||
  symbol = "DD" || symbol = "CE" || symbol = "LYB"

/-- Retail/consumer keywords (+40) (`utils.ts` line 246). -/
def retailKw (v : VendorOverview) : Bool :=
  let name := lowerStr v.name
  jsIncludes name "retail" || jsIncludes name "consumer" || jsIncludes name "restaurant"

/-- Insurance/property keywords (+45) (`utils.ts` line 248). -/
def insuranceKw (v : VendorOverview) : Bool :=
  let name := lowerStr v.name
  jsIncludes name "insurance" || jsIncludes name "property"

/-- Manufacturing/industrial keywords (+35) (`utils.ts` line 250). -/
def manufacturingKw (v : VendorOverview) : Bool :=
  let name := lowerStr v.name
  jsIncludes name "manufacturing" || jsIncludes name "industrial"

/-- Technology keywords or the TEL/ST ticker allow-list (+25)
(`utils.ts` lines 255-258). -/
def techKw (v : VendorOverview) : Bool :=
  let name := lowerStr v.name
  let symbol := upperStr v.symbol
  jsIncludes name "technology" || jsIncludes name "software" || jsIncludes name "data" ||
  jsIncludes name "telecom" || jsIncludes name "connectivity" ||
  symbol = "TEL" || symbol = "ST"

/-- The base component of the exposure score: the single `if`/`else if`
keyword chain of `getWeatherExposure` (`utils.ts` lines 218-260). -/
def exposureBase (v : VendorOverview) : ℚ :=
  if critWeatherKw v then 80
  else if utilityKw v then 75
  else if aviationKw v then 70
  else if logisticsKw v then 60
  else if constructionKw v then 55
  else if chemicalKw v then 50
  else if retailKw v then 40
  else if insuranceKw v then 45
  else if manufacturingKw v then 35
  else if techKw v then 25
  else 0

/-- The spec's reading of the same rules as an explicit priority-ordered
list of (predicate, points) pairs (spec section 4.2: "an explicit ordered
list of (predicate, tag) pairs").  Used to state the mutual-exclusivity
claim by comparison with `exposureBase`. -/
def specExposureRuleList : List ((VendorOverview → Bool) × ℚ) :=
  [(critWeatherKw, 80), (utilityKw, 75), (aviationKw, 70), (logisticsKw, 60),
   (constructionKw, 55), (chemicalKw, 50), (retailKw, 40), (insuranceKw, 45),
   (manufacturingKw, 35), (techKw, 25)]

/-- Value of the first rule of `rules` whose predicate matches `v`
(0 when none matches): only the first match in priority order applies. -/
def firstMatchValue (v : VendorOverview) : List ((VendorOverview → Bool) × ℚ) → ℚ
  | [] => 0
  | r :: rs => if r.1 v then r.2 else firstMatchValue v rs

/-- Market-cap size bonus of `getWeatherExposure` (`utils.ts` lines 263-265). -/
def exposureSizeBonus (marketCapB : ℚ) : ℚ :=
  if 50 < marketCapB then 10
  else if 20 < marketCapB then 7
  else if 5 < marketCapB then 5
  else 0

/-- P/E volatility bonus of `getWeatherExposure` (`utils.ts` lines 268-269). -/
def exposurePeBonus (pe : ℚ) : ℚ :=
  if 25 < pe then 5
  else if pe < 10 ∧ 0 < pe then 3
  else 0

/-- The 0-100 weather exposure score of `getWeatherExposure`
(`utils.ts` lines 209-269). -/
def exposureScore (v : VendorOverview) : ℚ :=
  exposureBase v + exposureSizeBonus (v.market_cap / 1000000000)
    + exposurePeBonus v.pe_ratio

/-- The tier/label/color triple returned by `getWeatherExposure`. -/
structure WeatherExposure where
  level : String
  sectors : String
  color : String
deriving DecidableEq

/-- `getWeatherExposure` final categorization (`utils.ts` lines 272-283). -/
def getWeatherExposure (v : VendorOverview) : WeatherExposure :=
  let s := exposureScore v
  if 70 ≤ s then ⟨"Critical", "Core Target", "text-red-700 bg-red-100"⟩
  else if 55 ≤ s then ⟨"High", "Priority Sector", "text-red-600 bg-red-50"⟩
  else if 40 ≤ s then ⟨"Medium", "Strategic Value", "text-amber-700 bg-amber-100"⟩
  else if 25 ≤ s then ⟨"Data Buyer", "Tech Partner", "text-blue-700 bg-blue-100"⟩
  else if 15 ≤ s then ⟨"Indirect", "Future Prospect", "text-indigo-600 bg-indigo-50"⟩
  else ⟨"Minimal", "Low Priority", "text-slate-600 bg-slate-100"⟩

/-! ## FinancialAlertGenerator (`utils.ts`, `getFinancialAlerts`) -/

/-- A financial health alert (`utils.ts` `FinancialAlert`).  The
interpolated `message` display string is not modelled (see header). -/
structure FinancialAlert where
  id : String
  type : String
  category : String
  title : String
  severity : ℕ
  actionable : Bool
  timeframe : String
deriving DecidableEq

/-- Stable insertion into a severity-descending list: an element moves left
past exactly those elements with strictly smaller severity, which is how a
stable sort with comparator `(a, b) => b.severity - a.severity` orders. -/
def insertBySeverity (a : FinancialAlert) : List FinancialAlert → List FinancialAlert
  | [] => [a]
  | b :: bs => if b.severity < a.severity then a :: b :: bs else b :: insertBySeverity a bs

/-- Stable severity-descending sort modelling the JS
`alerts.sort((a, b) => b.severity - a.severity)` (stable per ES2019). -/
def sortBySeverityDesc : List FinancialAlert → List FinancialAlert
  | [] => []
  | a :: as_ => insertBySeverity a (sortBySeverityDesc as_)

/-- `getFinancialAlerts` (`utils.ts` lines 405-510): seven independent
rules appended in declaration order, then sorted by severity descending. -/
def getFinancialAlerts (v : VendorOverview) : List FinancialAlert :=
  let alerts :=
    (if v.ebitda < 0 then
      [⟨v.symbol ++ "-negative-ebitda", "critical", "profitability", "Negative EBITDA",
        9, true, "immediate"⟩] else []) ++
    (if 50 < v.pe_ratio ∧ 0 < v.pe_ratio then
      [⟨v.symbol ++ "-extreme-pe", "warning", "valuation", "Extreme P/E Ratio",
        7, true, "short-term"⟩] else []) ++
    (if 0 < v.pe_ratio ∧ v.pe_ratio < 15 ∧ 1000000000 < v.ebitda then
      [⟨v.symbol ++ "-value-opportunity", "opportunity", "valuation", "Value Investment Opportunity",
        5, true, "medium-term"⟩] else []) ++
    (if v.market_cap < 5000000000 then
      [⟨v.symbol ++ "-small-cap-risk", "warning", "volatility", "Small Cap Volatility Risk",
        6, false, "long-term"⟩] else []) ++
    (if 50000000000 < v.market_cap ∧ 5000000000 < v.ebitda then
      [⟨v.symbol ++ "-large-cap-stable", "info", "growth", "Large Cap Stability",
        3, false, "long-term"⟩] else []) ++
    (if 0 < v.ebitda ∧ 0 < v.market_cap ∧ (0.12 : ℚ) < v.ebitda / v.market_cap then
      [⟨v.symbol ++ "-high-efficiency", "opportunity", "profitability", "High Profitability Efficiency",
        4, true, "short-term"⟩] else []) ++
    (if v.pe_ratio = 0 then
      [⟨v.symbol ++ "-no-pe-data", "warning", "valuation", "No Earnings Data Available",
        6, true, "immediate"⟩] else [])
  sortBySeverityDesc alerts

/-! ## PeerComparisonCalculator (`utils.ts`, `industryBenchmarks`,
`getIndustryClassification`, `getPeerComparison`) -/

/-- Per-industry reference statistics (`utils.ts` `IndustryBenchmark`). -/
structure IndustryBenchmark where
  industry : String
  sector : String
  avgPeRatio : ℚ
  avgMarketCap : ℚ
  avgEbitdaMargin : ℚ
  companies : ℕ
  volatilityIndex : ℕ
deriving DecidableEq

/-- The static `industryBenchmarks` record (`utils.ts` lines 513-551),
as an `Option`-valued keyed lookup. -/
def industryBenchmarks (key : String) : Option IndustryBenchmark :=
  if key = "technology" then
    some ⟨"Technology Hardware", "Technology", 28.5, 45.2, 18.5, 156, 7⟩
  else if key = "semiconductors" then
    some ⟨"Semiconductors", "Technology", 32.1, 52.8, 22.3, 89, 8⟩
  else if key = "chemicals" then
    some ⟨"Specialty Chemicals", "Materials", 18.7, 28.4, 16.8, 124, 6⟩
  else if key = "diversified_chemicals" then
    some ⟨"Diversified Chemicals", "Materials", 15.3, 35.6, 14.2, 67, 5⟩
  else none

/-- `getIndustryClassification` (`utils.ts` lines 562-581). -/
def getIndustryClassification (v : VendorOverview) : String :=
  let symbol := upperStr v.symbol
  let name := lowerStr v.name
  if symbol = "TEL" || symbol = "ST" ||
     jsIncludes name "technology" || jsIncludes name "semiconductor" ||
     jsIncludes name "connectivity" || jsIncludes name "sensata" then
    (if symbol = "ST" then "semiconductors" else "technology")
  else if symbol = "DD" || symbol = "CE" || symbol = "LYB" ||
          jsIncludes name "chemical" || jsIncludes name "dupont" ||
          jsIncludes name "celanese" || jsIncludes name "lyondell" then
    (if symbol = "DD" then "diversified_chemicals" else "chemicals")
  else "technology"

/-- Result of `getPeerComparison` (`utils.ts` `PeerComparison`).  The
free-text `insights` strings interpolate locale-formatted numbers and are
not modelled (see header); every numeric field is kept. -/
structure PeerComparison where
  vendor : VendorOverview
  industry : IndustryBenchmark
  pePercentile : ℚ
  marketCapPercentile : ℚ
  ebitdaMarginPercentile : ℚ
  overallRanking : String
deriving DecidableEq

/-- `getPeerComparison` (`utils.ts` lines 593-650).  The source indexes
`industryBenchmarks[industryKey]` directly; the partial lookup is embedded
as `Option` (C5 proves it never misses). -/
def getPeerComparison (v : VendorOverview) : Option PeerComparison :=
  match industryBenchmarks (getIndustryClassification v) with
  | none => none
  | some industry =>
    let marketCapB := v.market_cap / 1000000000
    let ebitdaMargin : ℚ :=
      if 0 < v.ebitda ∧ 0 < v.market_cap then v.ebitda / v.market_cap * 100 else 0
    let pePercentile : ℚ :=
      if 0 < v.pe_ratio then
        min 100 (max 0 (v.pe_ratio / industry.avgPeRatio * 50))
      else 0
    let marketCapPercentile : ℚ := min 100 (max 0 (marketCapB / industry.avgMarketCap * 50))
    let ebitdaMarginPercentile : ℚ :=
      if 0 < ebitdaMargin then
        min 100 (max 0 (ebitdaMargin / industry.avgEbitdaMargin * 50))
      else 0
    let compositeScore := (pePercentile + marketCapPercentile + ebitdaMarginPercentile) / 3
    let overallRanking :=
      if 75 ≤ compositeScore then "top-quartile"
      else if 50 ≤ compositeScore then "above-average"
      else if 25 ≤ compositeScore then "below-average"
      else "bottom-quartile"
    some ⟨v, industry, pePercentile, marketCapPercentile, ebitdaMarginPercentile, overallRanking⟩

/-! ## WeatherRiskCalculator and WeatherEventSimulator
(`dynamicWeatherIntelligence.ts`) -/

/-- Per-sector weather sensitivity profile
(`dynamicWeatherIntelligence.ts` `SECTOR_WEATHER_SENSITIVITY` values). -/
structure SectorWeatherProfile where
  sensitivity : String
  baseCorrelation : ℚ
  primaryRisks : List String
  seasonalVariance : ℚ
deriving DecidableEq

/-- The static `SECTOR_WEATHER_SENSITIVITY` record
(`dynamicWeatherIntelligence.ts` lines 12-85), as an `Option`-valued lookup. -/
def sectorWeatherSensitivity (sector : String) : Option SectorWeatherProfile :=
  if sector = "TECHNOLOGY" then
    some ⟨"medium", 0.45, ["extreme_temperatures", "power_outages", "supply_chain_disruption"], 12⟩
  else if sector = "BASIC MATERIALS" then
    some ⟨"high", 0.72, ["hurricanes", "extreme_heat", "flooding", "drought"], 25⟩
  else if sector = "ENERGY" then
    some ⟨"high", 0.68, ["hurricanes", "extreme_heat", "winter_storms", "flooding"], 22⟩
  else if sector = "UTILITIES" then
    some ⟨"high", 0.75, ["extreme_temperatures", "winter_storms", "hurricanes", "power_grid_stress"], 28⟩
  else if sector = "INDUSTRIALS" then
    some ⟨"medium", 0.52, ["extreme_temperatures", "supply_chain_disruption", "flooding"], 15⟩
  else if sector = "CONSUMER DISCRETIONARY" then
    some ⟨"low", 0.32, ["extreme_weather_events", "seasonal_disruption"], 8⟩
  else if sector = "CONSUMER STAPLES" then
    some ⟨"medium", 0.48, ["drought", "flooding", "supply_chain_disruption"], 10⟩
  else if sector = "HEALTHCARE" then
    some ⟨"low", 0.25, ["extreme_weather_events", "transportation_disruption"], 6⟩
  else if sector = "FINANCIALS" then
    some ⟨"low", 0.28, ["extreme_weather_events", "economic_disruption"], 7⟩
  else if sector = "REAL ESTATE" then
    some ⟨"high", 0.65, ["hurricanes", "flooding", "extreme_temperatures", "natural_disasters"], 20⟩
  else if sector = "COMMUNICATION SERVICES" then
    some ⟨"medium", 0.38, ["power_outages", "infrastructure_damage", "extreme_weather"], 9⟩
  else none

/-- Per-industry weather factors
(`dynamicWeatherIntelligence.ts` `INDUSTRY_WEATHER_FACTORS` values).
The `keyFactors` narrative strings are static data and are kept. -/
structure IndustryWeatherFactor where
  weatherDependency : ℚ
  keyFactors : List String
  supplyChainVulnerability : ℚ
deriving DecidableEq

/-- The static `INDUSTRY_WEATHER_FACTORS` record
(`dynamicWeatherIntelligence.ts` lines 88-162), as an `Option`-valued
lookup. -/
def industryWeatherFactors (industry : String) : Option IndustryWeatherFactor :=
  if industry = "ELECTRONIC COMPONENTS" then
    some ⟨65, ["Temperature fluctuations affecting semiconductor manufacturing",
               "Humidity control in clean rooms", "Power grid stability"], 70⟩
  else if industry = "SCIENTIFIC & TECHNICAL INSTRUMENTS" then
    some ⟨55, ["Precision manufacturing temperature control",
               "Transportation weather delays", "Customer site accessibility"], 60⟩
  else if industry = "CONSUMER ELECTRONICS" then
    some ⟨45, ["Supply chain weather delays", "Seasonal demand patterns",
               "Manufacturing facility climate control"], 65⟩
  else if industry = "SOFTWARE" then
    some ⟨25, ["Data center cooling requirements", "Power grid reliability",
               "Remote work weather impacts"], 30⟩
  else if industry = "SPECIALTY CHEMICALS" then
    some ⟨85, ["Raw material availability", "Energy costs from weather",
               "Hurricane season shutdowns", "Extreme temperature operational limits"], 88⟩
  else if industry = "COMMODITY CHEMICALS" then
    some ⟨90, ["Weather-sensitive feedstock costs", "Energy-intensive processes",
               "Hurricane evacuation protocols", "Temperature-critical reactions"], 92⟩
  else if industry = "AGRICULTURAL CHEMICALS" then
    some ⟨95, ["Seasonal application windows", "Weather-driven crop demand",
               "Drought impact on sales", "Flooding distribution delays"], 85⟩
  else if industry = "OIL & GAS REFINING" then
    some ⟨88, ["Hurricane facility shutdowns", "Extreme heat operational stress",
               "Winter demand spikes", "Pipeline weather disruptions"], 85⟩
  else if industry = "RENEWABLE ENERGY" then
    some ⟨95, ["Weather-dependent generation", "Extreme weather equipment damage",
               "Seasonal output variations", "Grid weather stress"], 60⟩
  else if industry = "REIT - HOTEL & MOTEL" then
    some ⟨75, ["Seasonal tourism patterns", "Weather-driven travel disruptions",
               "Hurricane evacuation impacts", "Conference weather cancellations"], 40⟩
  else if industry = "REIT - RESIDENTIAL" then
    some ⟨80, ["Weather damage maintenance costs", "Seasonal moving patterns",
               "Extreme weather tenant displacement", "Insurance weather claims"], 45⟩
  else if industry = "OTHER" then
    some ⟨50, ["General weather business impacts", "Seasonal variations",
               "Supply chain weather risks"], 55⟩
  else none

/-- Result of `calculateWeatherRisk`.  The unrecognized-tag default branch
of the source returns an object literal without the last three properties;
those are therefore `Option`-valued here, `none` meaning absent. -/
structure WeatherRiskProfile where
  sensitivity : String
  correlation : ℚ
  coverage : ℚ
  riskLevel : String
  climateExposure : Option ℤ
  supplyChainVulnerability : Option ℚ
  seasonalVariance : Option ℚ
deriving DecidableEq

/-- `calculateWeatherRisk` (`dynamicWeatherIntelligence.ts` lines 319-357).
`r` is the single `Math.random()` draw used for the coverage jitter. -/
def calculateWeatherRisk (v : VendorOverview) (sector industryTag : String) (r : ℚ) :
    WeatherRiskProfile :=
  match sectorWeatherSensitivity sector, industryWeatherFactors industryTag with
  | some sectorData, some industryData =>
    let sizeRiskMultiplier : ℚ := min 1.5 (v.market_cap / 50000000000)
    let valuationRiskMultiplier : ℚ :=
      if 0 < v.pe_ratio then min 1.3 (v.pe_ratio / 30) else 1
    let adjustedCorrelation : ℚ :=
      min 0.95 (sectorData.baseCorrelation * sizeRiskMultiplier * valuationRiskMultiplier)
    let riskLevel : String :=
      if (0.7 : ℚ) < adjustedCorrelation then "high"
      else if (0.5 : ℚ) < adjustedCorrelation then "medium"
      else "low"
    let coverage : ℚ :=
      75 + (Int.floor (v.market_cap / 1000000000 * 0.3) : ℚ) + (Int.floor (r * 15) : ℚ)
    { sensitivity := sectorData.sensitivity
      correlation := adjustedCorrelation
      coverage := min 98 coverage
      riskLevel := riskLevel
      climateExposure := some (Int.floor (industryData.weatherDependency + adjustedCorrelation * 20))
      supplyChainVulnerability := some industryData.supplyChainVulnerability
      seasonalVariance := some (sectorData.seasonalVariance * sizeRiskMultiplier) }
  | _, _ => ⟨"low", 0.2, 75, "low", none, none, none⟩

/-- Company-specific operational profile
(`dynamicWeatherIntelligence.ts` `COMPANY_OPERATIONAL_DATA` values). -/
structure CompanyOperationalProfile where
  primaryRegions : List String
  facilityTypes : List String
  seasonalPeaks : List ℕ
  weatherVulnerabilities : List String
deriving DecidableEq

/-- The static `COMPANY_OPERATIONAL_DATA` record
(`dynamicWeatherIntelligence.ts` lines 165-200), as an `Option`-valued
lookup keyed by vendor symbol. -/
def companyOperationalData (symbol : String) : Option CompanyOperationalProfile :=
  if symbol = "TEL" then
    some ⟨["Asia-Pacific", "Europe", "Americas"],
          ["Semiconductor fabs", "R&D centers", "Supply chain hubs"],
          [6, 7, 8],
          ["extreme_heat", "flooding", "power_outages"]⟩
  else if symbol = "ST" then
    some ⟨["Europe", "Asia", "North America"],
          ["Manufacturing plants", "Design centers", "Test facilities"],
          [9, 10, 11],
          ["winter_storms", "supply_chain_disruption", "extreme_temperatures"]⟩
  else if symbol = "DD" then
    some ⟨["Gulf Coast", "Delaware", "Global chemical corridors"],
          ["Chemical plants", "Research facilities", "Distribution centers"],
          [4, 5, 6],
          ["hurricanes", "extreme_heat", "flooding", "chemical_transport_disruption"]⟩
  else if symbol = "CE" then
    some ⟨["Texas", "Louisiana", "International operations"],
          ["Petrochemical complexes", "Pipeline networks", "Storage facilities"],
          [7, 8, 9],
          ["hurricanes", "extreme_heat", "winter_freeze", "infrastructure_damage"]⟩
  else if symbol = "LYB" then
    some ⟨["Texas", "Europe", "Asia"],
          ["Refineries", "Chemical plants", "Polyolefin facilities"],
          [5, 6, 7],
          ["hurricanes", "extreme_heat", "drought", "supply_disruption"]⟩
  else none

/-- A synthetic weather event (`dynamicWeatherIntelligence.ts`, the object
literals pushed by `generateWeatherEvents`). -/
structure WeatherEvent where
  event_type : String
  severity : String
  date : String
  affected_regions : List String
  estimated_impact : ℤ
  windborne_prediction_accuracy : ℤ
deriving DecidableEq

/-- One iteration of the `forEach` / `switch (vulnerability)` body of
`generateWeatherEvents` (`dynamicWeatherIntelligence.ts` lines 212-288):
given the vulnerability kind `vuln`, the events to push and the stream
index after the `Math.random()` draws this iteration consumes, in source
evaluation order (the object literal's draws are consumed even when
`shouldGenerate` ends up false, exactly as in the source). -/
def vulnEvents (cd : CompanyOperationalProfile) (m y : ℕ) (rm : ℚ) (s : ℕ → ℚ)
    (i : ℕ) (vuln : String) : List WeatherEvent × ℕ :=
  if vuln = "hurricanes" then
    if 6 ≤ m ∧ m ≤ 11 then
      ([{ event_type := "hurricane"
          severity := if 8 ≤ m ∧ m ≤ 10 then "severe" else "moderate"
          date := toString y ++ "-" ++ pad2 m ++ "-15"
          affected_regions := cd.primaryRegions.filter (fun reg =>
            (["Gulf Coast", "Texas", "Louisiana", "Southeast US"].any
              (fun region => jsIncludes reg region)))
          estimated_impact := Int.floor ((-30000000 - s i * 80000000) * rm)
          windborne_prediction_accuracy := 87 + Int.floor (s (i + 1) * 11) }], i + 2)
    else ([], i)
  else if vuln = "extreme_heat" then
    if 6 ≤ m ∧ m ≤ 9 then
      (if (0.3 : ℚ) < s i then
        [{ event_type := "extreme_heat"
           severity := if m = 7 ∨ m = 8 then "severe" else "moderate"
           date := toString y ++ "-" ++ pad2 m ++ "-" ++ toString (Int.floor (s (i + 1) * 28) + 1)
           affected_regions := cd.primaryRegions
           estimated_impact := Int.floor ((-10000000 - s (i + 2) * 25000000) * rm)
           windborne_prediction_accuracy := 89 + Int.floor (s (i + 3) * 9) }]
       else [], i + 4)
    else ([], i)
  else if vuln = "winter_storms" then
    if 12 ≤ m ∨ m ≤ 3 then
      (if (0.4 : ℚ) < s i then
        [{ event_type := "winter_storm"
           severity := if m = 1 ∨ m = 2 then "severe" else "moderate"
           date := toString y ++ "-" ++ pad2 m ++ "-" ++ toString (Int.floor (s (i + 1) * 28) + 1)
           affected_regions := cd.primaryRegions.filter (fun reg =>
             (["Europe", "North America", "Northeast US", "Midwest"].any
               (fun region => jsIncludes reg region)))
           estimated_impact := Int.floor ((-15000000 - s (i + 2) * 35000000) * rm)
           windborne_prediction_accuracy := 84 + Int.floor (s (i + 3) * 13) }]
       else [], i + 4)
    else ([], i)
  else if vuln = "flooding" then
    if 4 ≤ m ∧ m ≤ 10 then
      (if (0.6 : ℚ) < s i then
        [{ event_type := "flooding"
           severity := "moderate"
           date := toString y ++ "-" ++ pad2 m ++ "-" ++ toString (Int.floor (s (i + 1) * 28) + 1)
           affected_regions := cd.primaryRegions
           estimated_impact := Int.floor ((-20000000 - s (i + 2) * 40000000) * rm)
           windborne_prediction_accuracy := 82 + Int.floor (s (i + 3) * 15) }]
       else [], i + 4)
    else ([], i)
  else ([], i)

/-- The `forEach` loop of `generateWeatherEvents` over the company's
vulnerability list, pushing each iteration's events in order and threading
the random-draw index. -/
def vulnFold (cd : CompanyOperationalProfile) (m y : ℕ) (rm : ℚ) (s : ℕ → ℚ) :
    List String → ℕ → List WeatherEvent
  | [], _ => []
  | vuln :: rest, i =>
    let r := vulnEvents cd m y rm s i vuln
    r.1 ++ vulnFold cd m y rm s rest r.2

/-- `generateWeatherEvents` (`dynamicWeatherIntelligence.ts` lines 203-301).
The `new Date()` month (1-12) and year reads become `m y`; the ambient
`Math.random()` source becomes the explicit stream `s`, consumed from
index 0 in source evaluation order.  In the fallback branch the two sector
tests are mutually exclusive, so both model lists draw from index 0. -/
def generateWeatherEvents (symbol sector _industryTag : String) (m y : ℕ)
    (s : ℕ → ℚ) : List WeatherEvent :=
  match companyOperationalData symbol with
  | some companyData =>
    let riskMultiplier : ℚ := if m ∈ companyData.seasonalPeaks then 1.5 else 1
    vulnFold companyData m y riskMultiplier s companyData.weatherVulnerabilities 0
  | none =>
    (if sector = "BASIC MATERIALS" ∧ 6 ≤ m ∧ m ≤ 11 then
      [{ event_type := "hurricane"
         severity := "severe"
         date := toString y ++ "-" ++ pad2 m ++ "-15"
         affected_regions := ["Gulf Coast", "Southeast US"]
         estimated_impact := Int.floor (-50000000 - s 0 * 100000000)
         windborne_prediction_accuracy := 88 + Int.floor (s 1 * 10) }]
     else []) ++
    (if sector = "TECHNOLOGY" ∧ (12 ≤ m ∨ m ≤ 3) then
      [{ event_type := "winter_storm"
         severity := "moderate"
         date := toString y ++ "-02-20"
         affected_regions := ["Northeast US", "Midwest"]
         estimated_impact := Int.floor (-20000000 - s 0 * 40000000)
         windborne_prediction_accuracy := 85 + Int.floor (s 1 * 12) }]
     else [])

/-! ## Concrete inputs used by counterexamples and witnesses -/

/-- A mega-cap, highly profitable, low-P/E vendor. -/
def vBigProfitable : VendorOverview :=
  ⟨"BIG", "Big Corp", 200000000000, 10, 40000000000⟩

/-- Mid-cap vendor with a high EBITDA margin. -/
def vMidMargin : VendorOverview :=
  ⟨"ACME", "Acme Corp", 10500000000, 20, 2100000000⟩

/-- Same vendor as `vMidMargin` but with a strictly larger market cap. -/
def vMidMarginBigger : VendorOverview :=
  ⟨"ACME", "Acme Corp", 20000000000, 20, 2100000000⟩

/-- Small loss-making vendor. -/
def vSmallLoss : VendorOverview :=
  ⟨"TINY", "Tiny Corp", 1000000000, 20, -1000000000⟩

/-- Same vendor as `vSmallLoss` but with a strictly larger market cap. -/
def vSmallLossBigger : VendorOverview :=
  ⟨"TINY", "Tiny Corp", 2000000000, 20, -1000000000⟩

/-- Vendor meeting the C3 no-alert preconditions but with a 20% EBITDA
yield. -/
def vHighYield : VendorOverview :=
  ⟨"EFF", "Eff Co", 5000000000, 20, 1000000000⟩

/-- Healthy vendor with an EBITDA yield of 10%. -/
def vQuiet : VendorOverview :=
  ⟨"OK", "Ok Co", 10000000000, 20, 1000000000⟩

/-- A vendor classified into the `technology` benchmark bucket. -/
def vTechVendor : VendorOverview :=
  ⟨"TEL", "TE Connectivity", 40000000000, 25, 5000000000⟩

/-- Two vendors that agree on all numeric fields but differ in
symbol and name. -/
def vNumTwinA : VendorOverview := ⟨"AAA", "Alpha Industries", 10000000000, 20, 2000000000⟩

/-- See `vNumTwinA`. -/
def vNumTwinB : VendorOverview := ⟨"BBB", "Beta Farms", 10000000000, 20, 2000000000⟩

/-- The constant-zero random stream. -/
def zStream : ℕ → ℚ := fun _ => 0

/-- The hurricane event `generateWeatherEvents` produces for symbol `DD`
in July 2026 under the constant-zero stream. -/
def ddJulyHurricane : WeatherEvent :=
  ⟨"hurricane", "moderate", "2026-07-15", ["Gulf Coast"], -30000000, 87⟩

/-! ## Component bounds and monotonicity lemmas -/

theorem sizeComponent_bounds (x : ℚ) : 5 ≤ sizeComponent x ∧ sizeComponent x ≤ 40 := by
  unfold sizeComponent; split_ifs <;> norm_num

theorem profitComponent_bounds (x : ℚ) : 0 ≤ profitComponent x ∧ profitComponent x ≤ 40 := by
  unfold profitComponent; split_ifs <;> norm_num

theorem efficiencyComponent_bounds (x : ℚ) :
    0 ≤ efficiencyComponent x ∧ efficiencyComponent x ≤ 20 := by
  unfold efficiencyComponent; split_ifs <;> norm_num

theorem peAdjustment_bounds (x : ℚ) : -5 ≤ peAdjustment x ∧ peAdjustment x ≤ 5 := by
  unfold peAdjustment; split_ifs <;> norm_num

set_option maxHeartbeats 1000000 in
theorem sizeComponent_mono {x y : ℚ} (h : x ≤ y) : sizeComponent x ≤ sizeComponent y := by
  unfold sizeComponent; split_ifs <;> linarith

theorem gradeRank_gradeOf (x : ℚ) :
    gradeRank (gradeOf x).score =
      (if 85 ≤ x then 6 else if 75 ≤ x then 5 else if 60 ≤ x then 4
       else if 45 ≤ x then 3 else if 30 ≤ x then 2 else if 20 ≤ x then 1 else 0) := by
  unfold gradeOf; split_ifs <;> rfl

set_option maxHeartbeats 1000000 in
theorem gradeOf_rank_mono {x y : ℚ} (h : x ≤ y) :
    gradeRank (gradeOf x).score ≤ gradeRank (gradeOf y).score := by
  rw [gradeRank_gradeOf, gradeRank_gradeOf]
  split_ifs <;> first | linarith | norm_num

/-! ## Claims C1, C2, C10: contract readiness -/

/-- C1 (counterexample): the strength score of `getContractReadiness` can
exceed 100.  A mega-cap vendor with EBITDA above 10B, an EBITDA margin
above 15% and a value-stock P/E collects 40 + 40 + 20 + 5 = 105. -/
theorem strengthScore_exceeds_100 :
    strengthScore vBigProfitable = 105 ∧
      ¬(0 ≤ strengthScore vBigProfitable ∧ strengthScore vBigProfitable ≤ 100) := by
  norm_num [strengthScore, sizeComponent, profitComponent, efficiencyComponent,
    peAdjustment, vBigProfitable]

/-- C1 (amended): for every vendor record, the strength score computed by
`getContractReadiness` lies in [0, 105], and the returned grade is one of
the seven fixed values A+, A, A-, B+, B, B-, C. -/
theorem contractReadiness_score_range_grade (v : VendorOverview) :
    0 ≤ strengthScore v ∧ strengthScore v ≤ 105 ∧
      (getContractReadiness v).score ∈ ["A+", "A", "A-", "B+", "B", "B-", "C"] := by
  obtain ⟨h1, h2⟩ := sizeComponent_bounds (v.market_cap / 1000000000)
  obtain ⟨h3, h4⟩ := profitComponent_bounds (v.ebitda / 1000000000)
  obtain ⟨h5, h6⟩ :=
    efficiencyComponent_bounds (if 0 < v.ebitda then v.ebitda / v.market_cap else 0)
  obtain ⟨h7, h8⟩ := peAdjustment_bounds v.pe_ratio
  refine ⟨?_, ?_, ?_⟩
  · unfold strengthScore; linarith
  · unfold strengthScore; linarith
  · unfold getContractReadiness gradeOf
    split_ifs <;> simp

/-- C1 (witness for the amended theorem's instantiation; the amended
theorem itself has no hypotheses, this closed instance evaluates it). -/
theorem contractReadiness_score_range_grade_concrete :
    0 ≤ strengthScore vQuiet ∧ strengthScore vQuiet ≤ 105 ∧
      (getContractReadiness vQuiet).score ∈ ["A+", "A", "A-", "B+", "B", "B-", "C"] :=
  contractReadiness_score_range_grade vQuiet

/-- C2 (counterexample): two vendor records agreeing on name, symbol,
P/E and EBITDA where the one with strictly higher market cap gets a
strictly LOWER strength score and a strictly lower grade: growing the
market cap from 10.5B to 20B keeps the size component at 25 but drops
the EBITDA margin from 20% to 10.5%, losing 4 efficiency points
(score 75 = grade A versus score 71 = grade A-). -/
theorem marketCap_monotonicity_cex :
    vMidMargin.name = vMidMarginBigger.name ∧
    vMidMargin.symbol = vMidMarginBigger.symbol ∧
    vMidMargin.pe_ratio = vMidMarginBigger.pe_ratio ∧
    vMidMargin.ebitda = vMidMarginBigger.ebitda ∧
    vMidMargin.market_cap < vMidMarginBigger.market_cap ∧
    strengthScore vMidMarginBigger < strengthScore vMidMargin ∧
    gradeRank (getContractReadiness vMidMarginBigger).score <
      gradeRank (getContractReadiness vMidMargin).score := by
  refine ⟨rfl, rfl, rfl, rfl, by norm_num [vMidMargin, vMidMarginBigger], ?_, ?_⟩ <;>
    (norm_num [strengthScore, sizeComponent, profitComponent, efficiencyComponent,
      peAdjustment, getContractReadiness, gradeOf, gradeRank, vMidMargin,
      vMidMarginBigger]) <;> decide

/-- C2 (amended): for two vendor records that agree on name, symbol,
P/E and EBITDA, with EBITDA ≤ 0 (so the market-cap-dependent efficiency
margin vanishes), the one with strictly higher market cap never receives
a lower strength score, and hence never a lower grade. -/
theorem marketCap_mono_nonpos_ebitda (v₁ v₂ : VendorOverview)
    (_hname : v₁.name = v₂.name) (_hsym : v₁.symbol = v₂.symbol)
    (hpe : v₁.pe_ratio = v₂.pe_ratio) (heb : v₁.ebitda = v₂.ebitda)
    (hnp : v₁.ebitda ≤ 0) (hmc : v₁.market_cap < v₂.market_cap) :
    strengthScore v₁ ≤ strengthScore v₂ ∧
      gradeRank (getContractReadiness v₁).score ≤
        gradeRank (getContractReadiness v₂).score := by
  have hdiv : v₁.market_cap / 1000000000 ≤ v₂.market_cap / 1000000000 := by
    have h9 : (0 : ℚ) < 1000000000 := by norm_num
    exact (div_le_div_iff_of_pos_right h9).mpr hmc.le
  have hm1 : (if 0 < v₁.ebitda then v₁.ebitda / v₁.market_cap else 0) = (0 : ℚ) :=
    if_neg (not_lt.mpr hnp)
  have hm2 : (if 0 < v₂.ebitda then v₂.ebitda / v₂.market_cap else 0) = (0 : ℚ) :=
    if_neg (not_lt.mpr (heb ▸ hnp))
  have hsize := sizeComponent_mono hdiv
  have hscore : strengthScore v₁ ≤ strengthScore v₂ := by
    unfold strengthScore
    rw [hm1, hm2, hpe, heb]
    linarith
  exact ⟨hscore, gradeOf_rank_mono hscore⟩

/-- C2 (witness): the amended theorem applied to a concrete loss-making
vendor at market caps 1B < 2B. -/
theorem marketCap_mono_nonpos_ebitda_witness :
    strengthScore vSmallLoss ≤ strengthScore vSmallLossBigger ∧
      gradeRank (getContractReadiness vSmallLoss).score ≤
        gradeRank (getContractReadiness vSmallLossBigger).score :=
  marketCap_mono_nonpos_ebitda vSmallLoss vSmallLossBigger rfl rfl rfl rfl
    (by norm_num [vSmallLoss]) (by norm_num [vSmallLoss, vSmallLossBigger])

/-- C10 (confirmed): `getContractReadiness` depends only on the three
numeric fields: two vendor records with equal market cap, P/E and EBITDA
get the identical grade/label/color result, regardless of symbol and name. -/
theorem contractReadiness_numeric_only (v₁ v₂ : VendorOverview)
    (hmc : v₁.market_cap = v₂.market_cap) (hpe : v₁.pe_ratio = v₂.pe_ratio)
    (heb : v₁.ebitda = v₂.ebitda) :
    getContractReadiness v₁ = getContractReadiness v₂ := by
  unfold getContractReadiness strengthScore
  rw [hmc, hpe, heb]

/-- C10 (witness): two vendors differing only in symbol and name. -/
theorem contractReadiness_numeric_only_witness :
    getContractReadiness vNumTwinA = getContractReadiness vNumTwinB :=
  contractReadiness_numeric_only vNumTwinA vNumTwinB rfl rfl rfl

/-! ## Claim C4: weather exposure -/

theorem exposureBase_bounds (v : VendorOverview) :
    0 ≤ exposureBase v ∧ exposureBase v ≤ 80 := by
  unfold exposureBase; split_ifs <;> norm_num

theorem exposureSizeBonus_bounds (x : ℚ) :
    0 ≤ exposureSizeBonus x ∧ exposureSizeBonus x ≤ 10 := by
  unfold exposureSizeBonus; split_ifs <;> norm_num

theorem exposurePeBonus_bounds (x : ℚ) :
    0 ≤ exposurePeBonus x ∧ exposurePeBonus x ≤ 5 := by
  unfold exposurePeBonus; split_ifs <;> norm_num

/-- C4 (confirmed): for every vendor record the weather exposure score lies
in [0, 100] (in fact in [0, 95]), and the base component equals the value
of the FIRST matching rule of the priority-ordered keyword rule list — the
rules are mutually exclusive, only the first match contributes. -/
theorem weatherExposure_range_and_first_match (v : VendorOverview) :
    0 ≤ exposureScore v ∧ exposureScore v ≤ 100 ∧
      exposureBase v = firstMatchValue v specExposureRuleList := by
  obtain ⟨h1, h2⟩ := exposureBase_bounds v
  obtain ⟨h3, h4⟩ := exposureSizeBonus_bounds (v.market_cap / 1000000000)
  obtain ⟨h5, h6⟩ := exposurePeBonus_bounds v.pe_ratio
  refine ⟨?_, ?_, rfl⟩ <;> (unfold exposureScore; linarith)

/-! ## Claim C3: financial alerts -/

/-- C3 (counterexample): a vendor satisfying all four stated conditions
(EBITDA ≥ 0, 15 ≤ P/E ≤ 50, market cap ≥ 5B, not (cap > 50B and
EBITDA > 5B)) whose alert list is nonetheless nonempty: its 20% EBITDA
yield fires the high-profitability-efficiency opportunity rule. -/
theorem financialAlerts_nonempty_cex :
    0 ≤ vHighYield.ebitda ∧ 15 ≤ vHighYield.pe_ratio ∧ vHighYield.pe_ratio ≤ 50 ∧
    5000000000 ≤ vHighYield.market_cap ∧
    ¬(50000000000 < vHighYield.market_cap ∧ 5000000000 < vHighYield.ebitda) ∧
    (getFinancialAlerts vHighYield).length = 1 := by
  norm_num [getFinancialAlerts, vHighYield, sortBySeverityDesc, insertBySeverity]

/-- C3 (amended): a vendor with EBITDA ≥ 0, 15 ≤ P/E ≤ 50, market cap
≥ 5B, not (cap > 50B and EBITDA > 5B), AND an EBITDA yield of at most 0.12
(EBITDA ≤ 0.12 × market cap) gets the empty alert list. -/
theorem financialAlerts_empty (v : VendorOverview)
    (heb : 0 ≤ v.ebitda) (hpe1 : 15 ≤ v.pe_ratio) (hpe2 : v.pe_ratio ≤ 50)
    (hmc : 5000000000 ≤ v.market_cap)
    (hbig : ¬(50000000000 < v.market_cap ∧ 5000000000 < v.ebitda))
    (hyield : v.ebitda ≤ (0.12 : ℚ) * v.market_cap) :
    getFinancialAlerts v = [] := by
  unfold getFinancialAlerts
  have c1 : ¬(v.ebitda < 0) := not_lt.mpr heb
  have c2 : ¬(50 < v.pe_ratio ∧ 0 < v.pe_ratio) := fun h => absurd hpe2 (not_le.mpr h.1)
  have c3 : ¬(0 < v.pe_ratio ∧ v.pe_ratio < 15 ∧ 1000000000 < v.ebitda) := by
    rintro ⟨-, h, -⟩; linarith
  have c4 : ¬(v.market_cap < 5000000000) := not_lt.mpr hmc
  have c6 : ¬(0 < v.ebitda ∧ 0 < v.market_cap ∧ (0.12 : ℚ) < v.ebitda / v.market_cap) := by
    rintro ⟨-, hmp, hy⟩
    have := (lt_div_iff hmp).mp hy
    linarith
  have c7 : ¬(v.pe_ratio = 0) := by intro h; rw [h] at hpe1; norm_num at hpe1
  rw [if_neg c1, if_neg c2, if_neg c3, if_neg c4, if_neg hbig, if_neg c6, if_neg c7]
  rfl

/-- C3 (witness): the amended theorem applied to a healthy vendor with a
10% EBITDA yield. -/
theorem financialAlerts_empty_witness : getFinancialAlerts vQuiet = [] :=
  financialAlerts_empty vQuiet (by norm_num [vQuiet]) (by norm_num [vQuiet])
    (by norm_num [vQuiet]) (by norm_num [vQuiet]) (by norm_num [vQuiet])
    (by norm_num [vQuiet])

/-! ## Claim C5: industry classification and peer percentiles -/

theorem clamp_0_100 (e : ℚ) : 0 ≤ min 100 (max 0 e) ∧ min 100 (max 0 e) ≤ 100 :=
  ⟨le_min (by norm_num) (le_max_left 0 e), min_le_left _ _⟩

theorem getIndustryClassification_cases (v : VendorOverview) :
    getIndustryClassification v = "semiconductors" ∨
    getIndustryClassification v = "technology" ∨
    getIndustryClassification v = "diversified_chemicals" ∨
    getIndustryClassification v = "chemicals" := by
  unfold getIndustryClassification
  dsimp only
  split_ifs <;> simp

theorem clampIte_bounds (c : Prop) [Decidable c] (e : ℚ) :
    0 ≤ (if c then min 100 (max 0 e) else 0) ∧
      (if c then min 100 (max 0 e) else 0) ≤ (100 : ℚ) := by
  split_ifs
  · exact clamp_0_100 e
  · norm_num

theorem peer_bounds_of_some (v : VendorOverview) (ind : IndustryBenchmark)
    (h : industryBenchmarks (getIndustryClassification v) = some ind) :
    ∃ pc, getPeerComparison v = some pc ∧
      0 ≤ pc.pePercentile ∧ pc.pePercentile ≤ 100 ∧
      0 ≤ pc.marketCapPercentile ∧ pc.marketCapPercentile ≤ 100 ∧
      0 ≤ pc.ebitdaMarginPercentile ∧ pc.ebitdaMarginPercentile ≤ 100 := by
  unfold getPeerComparison
  rw [h]
  dsimp only
  refine ⟨_, rfl, ?_, ?_, ?_, ?_, ?_, ?_⟩
  · exact (clampIte_bounds _ _).1
  · exact (clampIte_bounds _ _).2
  · exact (clamp_0_100 _).1
  · exact (clamp_0_100 _).2
  · exact (clampIte_bounds _ _).1
  · exact (clampIte_bounds _ _).2

/-- C5 (confirmed): for every vendor record, `getIndustryClassification`
returns a key present in the `industryBenchmarks` table — so the benchmark
lookup inside `getPeerComparison` is always defined — and the three
percentile fields of the resulting `PeerComparison` each lie in [0, 100]. -/
theorem peerComparison_defined_and_percentiles (v : VendorOverview) :
    (industryBenchmarks (getIndustryClassification v)).isSome ∧
      ∃ pc, getPeerComparison v = some pc ∧
        0 ≤ pc.pePercentile ∧ pc.pePercentile ≤ 100 ∧
        0 ≤ pc.marketCapPercentile ∧ pc.marketCapPercentile ≤ 100 ∧
        0 ≤ pc.ebitdaMarginPercentile ∧ pc.ebitdaMarginPercentile ≤ 100 := by
  have hsome : ∃ ind, industryBenchmarks (getIndustryClassification v) = some ind := by
    rcases getIndustryClassification_cases v with h | h | h | h <;> rw [h] <;> exact ⟨_, rfl⟩
  obtain ⟨ind, hind⟩ := hsome
  exact ⟨by rw [hind]; rfl, peer_bounds_of_some v ind hind⟩

/-! ## Claims C6 and C9: weather risk calculator -/

/-- C6 (confirmed): whenever both the sector and the industry tag are
recognized, `calculateWeatherRisk` returns correlation
min(0.95, baseCorrelation × min(1.5, market_cap/50B) × (min(1.3, P/E/30)
when P/E > 0, else 1.0)) and assigns riskLevel high when correlation > 0.7,
medium when correlation > 0.5, low otherwise; and for every input and
every random draw the returned coverage is at most 98. -/
theorem weatherRisk_formulas :
    (∀ (v : VendorOverview) (sec ind : String) (r : ℚ),
        (calculateWeatherRisk v sec ind r).coverage ≤ 98) ∧
    (∀ (v : VendorOverview) (sec ind : String) (r : ℚ)
        (sd : SectorWeatherProfile) (idt : IndustryWeatherFactor),
        sectorWeatherSensitivity sec = some sd →
        industryWeatherFactors ind = some idt →
        (calculateWeatherRisk v sec ind r).correlation =
          min 0.95 (sd.baseCorrelation * min 1.5 (v.market_cap / 50000000000) *
            (if 0 < v.pe_ratio then min 1.3 (v.pe_ratio / 30) else 1)) ∧
        (calculateWeatherRisk v sec ind r).riskLevel =
          (if (0.7 : ℚ) < (calculateWeatherRisk v sec ind r).correlation then "high"
           else if (0.5 : ℚ) < (calculateWeatherRisk v sec ind r).correlation then "medium"
           else "low")) := by
  constructor
  · intro v sec ind r
    unfold calculateWeatherRisk
    cases hs : sectorWeatherSensitivity sec <;> cases hi : industryWeatherFactors ind <;>
      dsimp only <;> first | norm_num | exact min_le_left _ _
  · intro v sec ind r sd idt hs hi
    unfold calculateWeatherRisk
    rw [hs, hi]
    dsimp only
    exact ⟨rfl, rfl⟩

/-- C6 (witness): the recognized pair (TECHNOLOGY, SOFTWARE) at a concrete
vendor and draw. -/
theorem weatherRisk_formulas_witness :
    (calculateWeatherRisk vTechVendor "TECHNOLOGY" "SOFTWARE" 0).coverage ≤ 98 ∧
    (calculateWeatherRisk vTechVendor "TECHNOLOGY" "SOFTWARE" 0).correlation =
      min 0.95 ((0.45 : ℚ) * min 1.5 (vTechVendor.market_cap / 50000000000) *
        (if 0 < vTechVendor.pe_ratio then min 1.3 (vTechVendor.pe_ratio / 30) else 1)) ∧
    (calculateWeatherRisk vTechVendor "TECHNOLOGY" "SOFTWARE" 0).riskLevel =
      (if (0.7 : ℚ) < (calculateWeatherRisk vTechVendor "TECHNOLOGY" "SOFTWARE" 0).correlation
       then "high"
       else if (0.5 : ℚ) < (calculateWeatherRisk vTechVendor "TECHNOLOGY" "SOFTWARE" 0).correlation
       then "medium" else "low") :=
  ⟨weatherRisk_formulas.1 vTechVendor "TECHNOLOGY" "SOFTWARE" 0,
   (weatherRisk_formulas.2 vTechVendor "TECHNOLOGY" "SOFTWARE" 0 _ _ rfl rfl).1,
   (weatherRisk_formulas.2 vTechVendor "TECHNOLOGY" "SOFTWARE" 0 _ _ rfl rfl).2⟩

/-- C9 (confirmed): when the sector tag or the industry tag is
unrecognized, `calculateWeatherRisk` returns exactly the fixed low-risk
default {sensitivity low, correlation 0.2, coverage 75, riskLevel low}
carrying no climate-exposure, supply-chain-vulnerability or
seasonal-variance fields, whereas the recognized branch populates all
three optional fields. -/
theorem weatherRisk_default_shape (v : VendorOverview) (sec ind : String) (r : ℚ) :
    ((sectorWeatherSensitivity sec = none ∨ industryWeatherFactors ind = none) →
       calculateWeatherRisk v sec ind r = ⟨"low", 0.2, 75, "low", none, none, none⟩) ∧
    (∀ sd idt, sectorWeatherSensitivity sec = some sd →
       industryWeatherFactors ind = some idt →
       (calculateWeatherRisk v sec ind r).climateExposure.isSome ∧
       (calculateWeatherRisk v sec ind r).supplyChainVulnerability.isSome ∧
       (calculateWeatherRisk v sec ind r).seasonalVariance.isSome) := by
  constructor
  · intro h
    unfold calculateWeatherRisk
    rcases h with h | h
    · rw [h]
    · cases hs : sectorWeatherSensitivity sec <;> rw [h]
  · intro sd idt hs hi
    unfold calculateWeatherRisk
    rw [hs, hi]
    exact ⟨rfl, rfl, rfl⟩

/-- C9 (witness): an unrecognized sector yields the bare default record;
a recognized pair populates the three optional fields. -/
theorem weatherRisk_default_shape_witness :
    calculateWeatherRisk vQuiet "FOO" "SOFTWARE" 0 = ⟨"low", 0.2, 75, "low", none, none, none⟩ ∧
    ((calculateWeatherRisk vQuiet "TECHNOLOGY" "SOFTWARE" 0).climateExposure.isSome ∧
     (calculateWeatherRisk vQuiet "TECHNOLOGY" "SOFTWARE" 0).supplyChainVulnerability.isSome ∧
     (calculateWeatherRisk vQuiet "TECHNOLOGY" "SOFTWARE" 0).seasonalVariance.isSome) :=
  ⟨(weatherRisk_default_shape vQuiet "FOO" "SOFTWARE" 0).1 (Or.inl rfl),
   (weatherRisk_default_shape vQuiet "TECHNOLOGY" "SOFTWARE" 0).2 _ _ rfl rfl⟩

/-! ## Claims C7 and C8: weather event simulator -/

theorem vulnEvents_congr (cd : CompanyOperationalProfile) (m y : ℕ) (rm : ℚ)
    (s₁ s₂ : ℕ → ℚ) (i : ℕ) (vuln : String)
    (h : ∀ k, i ≤ k → k < i + 4 → s₁ k = s₂ k) :
    vulnEvents cd m y rm s₁ i vuln = vulnEvents cd m y rm s₂ i vuln := by
  have e0 : s₁ i = s₂ i := h i le_rfl (by omega)
  have e1 : s₁ (i + 1) = s₂ (i + 1) := h _ (by omega) (by omega)
  have e2 : s₁ (i + 2) = s₂ (i + 2) := h _ (by omega) (by omega)
  have e3 : s₁ (i + 3) = s₂ (i + 3) := h _ (by omega) (by omega)
  unfold vulnEvents
  rw [e0, e1, e2, e3]

theorem vulnEvents_idx (cd : CompanyOperationalProfile) (m y : ℕ) (rm : ℚ)
    (s : ℕ → ℚ) (i : ℕ) (vuln : String) :
    i ≤ (vulnEvents cd m y rm s i vuln).2 ∧ (vulnEvents cd m y rm s i vuln).2 ≤ i + 4 := by
  unfold vulnEvents
  split_ifs <;> dsimp only <;> omega

theorem vulnFold_congr (cd : CompanyOperationalProfile) (m y : ℕ) (rm : ℚ)
    (s₁ s₂ : ℕ → ℚ) (l : List String) :
    ∀ i : ℕ, (∀ k, i ≤ k → k < i + 4 * l.length → s₁ k = s₂ k) →
      vulnFold cd m y rm s₁ l i = vulnFold cd m y rm s₂ l i := by
  induction l with
  | nil => intro i _; rfl
  | cons vuln rest ih =>
    intro i h
    have hv : vulnEvents cd m y rm s₁ i vuln = vulnEvents cd m y rm s₂ i vuln := by
      apply vulnEvents_congr
      intro k hk1 hk2
      apply h k hk1
      simp only [List.length_cons]
      omega
    obtain ⟨hn1, hn2⟩ := vulnEvents_idx cd m y rm s₂ i vuln
    simp only [vulnFold]
    rw [hv]
    congr 1
    apply ih
    intro k hk1 hk2
    apply h k (le_trans hn1 hk1)
    simp only [List.length_cons]
    omega

/-- C7 (confirmed): with the ambient random source and current date made
explicit, `generateWeatherEvents` is a pure function of (symbol, sector,
industry, month, year, first 16 random draws): two calls with the same
symbol, sector tag, industry tag, date, and a random source fixed to agree
on the (at most 16) draws the function can consume — in particular the
same fixed seed — produce identical event lists. -/
theorem generateWeatherEvents_deterministic (symbol sector indTag : String)
    (m y : ℕ) (s₁ s₂ : ℕ → ℚ) (h : ∀ k, k < 16 → s₁ k = s₂ k) :
    generateWeatherEvents symbol sector indTag m y s₁ =
      generateWeatherEvents symbol sector indTag m y s₂ := by
  have h0 : s₁ 0 = s₂ 0 := h 0 (by omega)
  have h1 : s₁ 1 = s₂ 1 := h 1 (by omega)
  unfold generateWeatherEvents
  cases hcd : companyOperationalData symbol with
  | none => rw [h0, h1]
  | some cd =>
    dsimp only
    apply vulnFold_congr
    intro k hk1 hk2
    apply h k
    have hlen : cd.weatherVulnerabilities.length ≤ 4 := by
      unfold companyOperationalData at hcd
      split_ifs at hcd <;>
        first
          | exact Option.noConfusion hcd
          | (injection hcd with hcd; subst hcd; decide)
    omega

/-- C7 (witness): the theorem applied at a concrete call with the
constant-zero source on both sides. -/
theorem generateWeatherEvents_deterministic_witness :
    generateWeatherEvents "DD" "BASIC MATERIALS" "SPECIALTY CHEMICALS" 7 2026 zStream =
      generateWeatherEvents "DD" "BASIC MATERIALS" "SPECIALTY CHEMICALS" 7 2026 zStream :=
  generateWeatherEvents_deterministic "DD" "BASIC MATERIALS" "SPECIALTY CHEMICALS"
    7 2026 zStream zStream (fun _ _ => rfl)

theorem vulnEvents_hurricane_month (cd : CompanyOperationalProfile) (m y : ℕ)
    (rm : ℚ) (s : ℕ → ℚ) (i : ℕ) (vuln : String) (e : WeatherEvent)
    (he : e ∈ (vulnEvents cd m y rm s i vuln).1)
    (ht : e.event_type = "hurricane") :
    6 ≤ m ∧ m ≤ 11 ∧ e.date = toString y ++ "-" ++ pad2 m ++ "-15" := by
  unfold vulnEvents at he
  split_ifs at he <;>
    simp only [List.mem_singleton, List.not_mem_nil] at he <;>
    first
      | exact he.elim
      | (subst he
         dsimp only at ht ⊢
         first
           | exact absurd ht (by decide)
           | refine ⟨by omega, by omega, rfl⟩)

theorem vulnFold_mem (cd : CompanyOperationalProfile) (m y : ℕ) (rm : ℚ)
    (s : ℕ → ℚ) (l : List String) :
    ∀ (i : ℕ) (e : WeatherEvent), e ∈ vulnFold cd m y rm s l i →
      ∃ vuln ∈ l, ∃ j, e ∈ (vulnEvents cd m y rm s j vuln).1 := by
  induction l with
  | nil => intro i e he; exact absurd he (by simp [vulnFold])
  | cons vuln rest ih =>
    intro i e he
    simp only [vulnFold] at he
    rcases List.mem_append.mp he with hme | hme
    · exact ⟨vuln, List.mem_cons_self _ _, i, hme⟩
    · obtain ⟨w, hw, j, hj⟩ := ih _ e hme
      exact ⟨w, List.mem_cons_of_mem _ hw, j, hj⟩

/-- C8 (confirmed): for every vendor symbol, sector tag, industry tag,
current month and year, and every random draw, every hurricane-kind event
produced by `generateWeatherEvents` is generated only when the current
month is in {6..11} and carries the date `year-month-15` built from that
in-season month. -/
theorem hurricane_only_in_season (symbol sector indTag : String) (m y : ℕ)
    (s : ℕ → ℚ) (e : WeatherEvent)
    (he : e ∈ generateWeatherEvents symbol sector indTag m y s)
    (ht : e.event_type = "hurricane") :
    6 ≤ m ∧ m ≤ 11 ∧ e.date = toString y ++ "-" ++ pad2 m ++ "-15" := by
  unfold generateWeatherEvents at he
  cases hcd : companyOperationalData symbol with
  | some cd =>
    rw [hcd] at he
    dsimp only at he
    obtain ⟨vuln, _, j, hj⟩ := vulnFold_mem cd m y _ s _ 0 e he
    exact vulnEvents_hurricane_month cd m y _ s j vuln e hj ht
  | none =>
    rw [hcd] at he
    dsimp only at he
    rcases List.mem_append.mp he with hme | hme
    · split_ifs at hme with hc
      · simp only [List.mem_singleton] at hme
        subst hme
        exact ⟨hc.2.1, hc.2.2, rfl⟩
      · exact absurd hme (List.not_mem_nil _)
    · split_ifs at hme with hc
      · simp only [List.mem_singleton] at hme
        subst hme
        dsimp only at ht
        exact absurd ht (by decide)
      · exact absurd hme (List.not_mem_nil _)

/-- C8 (witness): symbol `DD` in July generates a hurricane event; the
theorem instantiates to the in-season conclusion for it. -/
theorem hurricane_only_in_season_witness :
    6 ≤ 7 ∧ 7 ≤ 11 ∧ ddJulyHurricane.date = toString 2026 ++ "-" ++ pad2 7 ++ "-15" :=
  hurricane_only_in_season "DD" "BASIC MATERIALS" "SPECIALTY CHEMICALS" 7 2026 zStream
    ddJulyHurricane
    (by
      show ddJulyHurricane ∈
        generateWeatherEvents "DD" "BASIC MATERIALS" "SPECIALTY CHEMICALS" 7 2026 zStream
      have hdd : companyOperationalData "DD" =
          some ⟨["Gulf Coast", "Delaware", "Global chemical corridors"],
                ["Chemical plants", "Research facilities", "Distribution centers"],
                [4, 5, 6],
                ["hurricanes", "extreme_heat", "flooding", "chemical_transport_disruption"]⟩ :=
        rfl
      norm_num [generateWeatherEvents, hdd, vulnFold, vulnEvents, zStream, pad2,
        ddJulyHurricane]
      decide)
    rfl
